import Mathlib

/-!
Verification development for the agent execution core of the
`pc_phone_agent` repository.

Shallow embedding of:
* `app/agent/base.py` — `BaseAgent.run`, `BaseAgent.state_context`,
  `BaseAgent.is_stuck`, `BaseAgent.handle_stuck_state`,
  `BaseAgent.update_memory` (the `user` branch used by `run`);
* `app/tool/base.py` — `ToolResult.__bool__`, `ToolResult.__add__`;
* `app/tool/create_chat_completion.py` — `CreateChatCompletion._build_parameters`,
  `_create_type_schema`, `_get_type_info`, `_create_union_schema`, `execute`.

Python exceptions are modelled with `Except String`, carrying the exception
message.  Python `int` is modelled by `Int`.  Optional string fields are
`Option String`; Python truthiness of such a field (`None` and `""` are
falsy) is `pyTruthy` below.
-/

namespace PcAgent

/-- Python truthiness of an optional string: `None` and `""` are falsy,
every other string is truthy. -/
def pyTruthy : Option String → Bool
  | none => false
  | some s => s != ""

/-- Modelled from the spec: `AgentState` lives in the missing `app/schema.py`;
the spec fixes it as the enumeration `IDLE | RUNNING | FINISHED | ERROR`. -/
inductive AgentState where
  | IDLE
  | RUNNING
  | FINISHED
  | ERROR
deriving DecidableEq, Repr

/-- Rendering of an `AgentState` used in exception messages
(`f"Cannot run agent from state: {self.state}"`). The exact text does not
matter to any claim; the state names come from the spec. -/
def AgentState.render : AgentState → String
  | .IDLE => "IDLE"
  | .RUNNING => "RUNNING"
  | .FINISHED => "FINISHED"
  | .ERROR => "ERROR"

/-- Modelled from the spec: message roles of the missing `app/schema.py`,
fixed by the spec as `system | user | assistant | tool`. -/
inductive Role where
  | system
  | user
  | assistant
  | tool
deriving DecidableEq, Repr

/-- Modelled from the spec: a `Message` of the missing `app/schema.py` —
a role-tagged record with text content, an optional image and an optional
tool-call correlation id. -/
structure Message where
  role : Role
  content : String
  base64_image : Option String := none
  tool_call_id : Option String := none
deriving DecidableEq, Repr

/-- `Message.user_message(content)` of the missing `app/schema.py`:
the well-formed `user`-role message built by `update_memory("user", …)`. -/
def Message.user_message (content : String) : Message :=
  { role := .user, content := content }

/-- The mutable fields of `BaseAgent` (`app/agent/base.py`) that the step
loop reads or writes.  The `llm` client, `name`, `description` and
`system_prompt` fields never influence `run`, `is_stuck` or
`handle_stuck_state` and are omitted. -/
structure Agent where
  state : AgentState := .IDLE
  memory : List Message := []
  next_step_prompt : Option String := none
  max_steps : Int := 10
  current_step : Int := 0
  duplicate_threshold : Int := 2
deriving DecidableEq, Repr

/-- `BaseAgent.is_stuck` (`app/agent/base.py` lines 190–206): fewer than two
messages is never stuck; a falsy (empty) last content is never stuck;
otherwise stuck iff the number of earlier `assistant` messages whose content
equals the last message's content reaches `duplicate_threshold`. -/
def Agent.is_stuck (a : Agent) : Bool :=
  if a.memory.length < 2 then false
  else
    match a.memory.getLast? with
    | none => false
    | some last =>
      if last.content == "" then false
      else
        let duplicate_count :=
          (a.memory.dropLast.filter
            (fun msg => msg.role == Role.assistant && msg.content == last.content)).length
        decide (a.duplicate_threshold ≤ (duplicate_count : Int))

/-- The fixed corrective instruction of `BaseAgent.handle_stuck_state`
(`app/agent/base.py` lines 184–185; the source string carries the
line-continuation indentation). -/
def stuckPrompt : String :=
  "        Observed duplicate responses. Consider new strategies and avoid repeating ineffective paths already attempted."

/-- `BaseAgent.handle_stuck_state` (`app/agent/base.py` lines 181–187):
prepend the corrective instruction to `next_step_prompt`
(`f"{stuck_prompt}\n{self.next_step_prompt}"`; an unset prompt formats as
the Python literal `"None"`). -/
def Agent.handle_stuck_state (a : Agent) : Agent :=
  let old := match a.next_step_prompt with
    | some p => p
    | none => "None"
  { a with next_step_prompt := some (stuckPrompt ++ "\n" ++ old) }

/-- An implementation of the abstract `BaseAgent.step`: it receives the agent
(after the step counter increment), may mutate it, and either returns a
summary string or raises (modelled by `Except.error` with the message). -/
abbrev StepFn := Agent → Agent × Except String String

/-- `"\n".join(results)` / `str.join` on a non-empty list
(the empty-list case is handled separately in `run`). -/
def joinStrings (sep : String) : List String → String
  | [] => ""
  | [x] => x
  | x :: y :: xs => x ++ sep ++ joinStrings sep (y :: xs)

/-- The `while` loop of `BaseAgent.run` (`app/agent/base.py` lines 153–164),
fuel-indexed to stay total: `none` means the fuel did not cover the loop's
iterations (never the case in the theorems below).  Each iteration:
increment `current_step`, call `step`, propagate a raised exception together
with the agent as the step left it, otherwise run the stuck check and append
the per-step record. -/
def runLoop (step : StepFn) : Nat → Agent → List String →
    Option (Agent × List String × Except String Unit)
  | 0, _, _ => none
  | fuel + 1, a, results =>
    if a.current_step < a.max_steps ∧ a.state ≠ AgentState.FINISHED then
      let a1 := { a with current_step := a.current_step + 1 }
      match step a1 with
      | (a2, .error e) => some (a2, results, .error e)
      | (a2, .ok step_result) =>
        let a3 := if a2.is_stuck then a2.handle_stuck_state else a2
        runLoop step fuel a3
          (results ++ ["Step " ++ toString a3.current_step ++ ": " ++ step_result])
    else
      some (a, results, .ok ())

/-- `BaseAgent.run` (`app/agent/base.py` lines 132–171).
Returns the agent as left after the call together with the returned summary
or the propagated exception.  The body mirrors the source:
* raise `RuntimeError` when the state is not `IDLE` (line 144);
* `if request:` append a `user` message (lines 148–149; `update_memory`'s
  `user` branch);
* `state_context(AgentState.RUNNING)` (lines 152, 80–91): save the previous
  state, switch to `RUNNING`, run the body; on an exception set the state to
  `ERROR` (the `except` clause) and then — the `finally` clause runs after
  the `except` — restore the previous state, re-raising the exception; on
  normal exit restore the previous state;
* inside the scope, after the loop: when `current_step >= max_steps`, reset
  the counter, force `IDLE` and append the termination record (lines 166–169);
* join the records, or return the sentinel when none were made (line 171). -/
def run (step : StepFn) (fuel : Nat) (a : Agent) (request : Option String) :
    Option (Agent × Except String String) :=
  if a.state ≠ AgentState.IDLE then
    some (a, .error ("Cannot run agent from state: " ++ a.state.render))
  else
    let a := if pyTruthy request then
        { a with memory := a.memory ++ [Message.user_message (request.getD "")] }
      else a
    let previous_state := a.state
    let a := { a with state := AgentState.RUNNING }
    match runLoop step fuel a [] with
    | none => none
    | some (a, _results, .error e) =>
      -- `except`: force ERROR; `finally`: restore the previous state.
      let a := { a with state := AgentState.ERROR }
      let a := { a with state := previous_state }
      some (a, .error e)
    | some (a, results, .ok ()) =>
      let (a, results) :=
        if a.max_steps ≤ a.current_step then
          ({ a with current_step := 0, state := AgentState.IDLE },
           results ++ ["Terminated: Reached max steps (" ++ toString a.max_steps ++ ")"])
        else (a, results)
      let a := { a with state := previous_state }
      some (a, .ok (if results.isEmpty then "No steps executed" else joinStrings "\n" results))

/-! ### Tool result composition — `app/tool/base.py` -/

/-- `ToolResult` (`app/tool/base.py` lines 35–41): the four data fields, each
defaulting to `None`.  `output` is `Any` in the source; the values produced
and merged in the repository are strings, and the spec types it as text, so
it is embedded as `Option String` like the other three fields. -/
structure ToolResult where
  output : Option String := none
  error : Option String := none
  base64_image : Option String := none
  system : Option String := none
deriving DecidableEq, Repr

/-- `ToolResult.__bool__` (`app/tool/base.py` lines 46–47):
`any(getattr(self, field) for field in self.__fields__)`, i.e. the Python
truthiness of the four fields, any of them. -/
def ToolResult.toBool (r : ToolResult) : Bool :=
  pyTruthy r.output || pyTruthy r.error || pyTruthy r.base64_image || pyTruthy r.system

/-- `combine_fields` inside `ToolResult.__add__` (`app/tool/base.py`
lines 50–57): when both fields are truthy, concatenate (or raise
`ValueError` when concatenation is disallowed); otherwise
`field or other_field`. -/
def combine_fields (field other_field : Option String) (concatenate : Bool) :
    Except String (Option String) :=
  if pyTruthy field && pyTruthy other_field then
    if concatenate then
      .ok (some (field.getD "" ++ other_field.getD ""))
    else
      .error "Cannot combine tool results"
  else
    .ok (if pyTruthy field then field else other_field)

/-- `ToolResult.__add__` (`app/tool/base.py` lines 49–64): merge the two
results field by field; `base64_image` is combined with
`concatenate=False`, so two truthy images raise and no result is produced. -/
def ToolResult.add (self other : ToolResult) : Except String ToolResult := do
  let output ← combine_fields self.output other.output true
  let error ← combine_fields self.error other.error true
  let base64_image ← combine_fields self.base64_image other.base64_image false
  let system ← combine_fields self.system other.system true
  return { output := output, error := error, base64_image := base64_image,
           system := system }

/-! ### Schema generation — `app/tool/create_chat_completion.py` -/

/-- A JSON-schema-like value, as built by `CreateChatCompletion`. -/
inductive Json where
  | str (s : String)
  | arr (elements : List Json)
  | obj (fields : List (String × Json))
deriving Repr

/-- Field lookup in a JSON object (`schema["properties"]` style access). -/
def Json.get (j : Json) (key : String) : Option Json :=
  match j with
  | .obj fields => fields.lookup key
  | _ => none

/-- A Python type hint as passed for `response_type`.  The constructors cover
exactly the shapes `_build_parameters`/`_create_type_schema` distinguish:
the plain builtins (`get_origin` = `None`), `List[t]`, `Dict[k, v]`,
`Union[…]`, and a `BaseModel` subclass whose `model_json_schema()` carries
the given properties and required list. -/
inductive PyTy where
  | pyStr
  | pyInt
  | pyFloat
  | pyBool
  | pyDict
  | pyList
  | listOf (item : PyTy)
  | dictOf (key value : PyTy)
  | union (members : List PyTy)
  | model (name : String) (properties : List (String × Json)) (required : List String)
deriving Repr

/-- `type_hint.__name__` as used in the generated descriptions. -/
def PyTy.pyName : PyTy → String
  | .pyStr => "str"
  | .pyInt => "int"
  | .pyFloat => "float"
  | .pyBool => "bool"
  | .pyDict => "dict"
  | .pyList => "list"
  | .listOf _ => "list"
  | .dictOf _ _ => "dict"
  | .union _ => "Union"
  | .model n _ _ => n

/-- `CreateChatCompletion.type_mapping.get(t, "string")`
(`app/tool/create_chat_completion.py` lines 16–23): the fixed mapping from
builtin types to JSON type names, defaulting to `"string"`. -/
def typeMappingGet : PyTy → String
  | .pyStr => "string"
  | .pyInt => "integer"
  | .pyFloat => "number"
  | .pyBool => "boolean"
  | .pyDict => "object"
  | .pyList => "array"
  | _ => "string"

mutual

/-- `CreateChatCompletion._get_type_info` (lines 143–151): a `BaseModel`
subclass contributes its own JSON schema; anything else contributes its
mapped type name and a description. -/
def getTypeInfo : PyTy → Json
  | .model name properties required =>
    Json.obj [("properties", Json.obj properties),
              ("required", Json.arr (required.map Json.str)),
              ("title", Json.str name),
              ("type", Json.str "object")]
  | t =>
    Json.obj [("type", Json.str (typeMappingGet t)),
              ("description", Json.str ("Value of type " ++ t.pyName))]

/-- `CreateChatCompletion._create_union_schema` (lines 153–161). -/
def createUnionSchema (required : List String) (types : List PyTy) : Json :=
  Json.obj [("type", Json.str "object"),
            ("properties", Json.obj
              [("response", Json.obj [("anyOf", Json.arr (types.map getTypeInfo))])]),
            ("required", Json.arr (required.map Json.str))]

end

/-- `CreateChatCompletion._create_type_schema` (lines 91–141), with
`self.required` passed explicitly (the instance's `required`, by default
`["response"]`).  `get_origin` is `None` exactly on the non-generic
constructors, which take the primitive branch; `List`, `Dict` and `Union`
origins take their own branches.  (The source's final fallback to
`_build_parameters` is for origins outside `{None, list, dict, Union}`,
which no `PyTy` constructor produces.) -/
def createTypeSchema (required : List String) : PyTy → Json
  | .listOf item =>
    Json.obj [("type", Json.str "object"),
              ("properties", Json.obj
                [("response", Json.obj [("type", Json.str "array"),
                                        ("items", getTypeInfo item)])]),
              ("required", Json.arr (required.map Json.str))]
  | .dictOf _ value =>
    Json.obj [("type", Json.str "object"),
              ("properties", Json.obj
                [("response", Json.obj [("type", Json.str "object"),
                                        ("additionalProperties", getTypeInfo value)])]),
              ("required", Json.arr (required.map Json.str))]
  | .union members => createUnionSchema required members
  | t =>
    Json.obj [("type", Json.str "object"),
              ("properties", Json.obj
                [("response", Json.obj
                  [("type", Json.str (typeMappingGet t)),
                   ("description", Json.str ("Response of type " ++ t.pyName))])]),
              ("required", Json.arr (required.map Json.str))]

/-- `CreateChatCompletion._build_parameters` (lines 42–89): `str` gets the
fixed response schema; a `BaseModel` subclass contributes its own properties
and required list (falling back to `self.required` when the model schema has
no required list); everything else goes through `_create_type_schema`. -/
def buildParameters (required : List String) : PyTy → Json
  | .pyStr =>
    Json.obj [("type", Json.str "object"),
              ("properties", Json.obj
                [("response", Json.obj
                  [("type", Json.str "string"),
                   ("description",
                    Json.str "The response text that should be delivered to the user.")])]),
              ("required", Json.arr (required.map Json.str))]
  | .model _ properties modelRequired =>
    Json.obj [("type", Json.str "object"),
              ("properties", Json.obj properties),
              ("required", Json.arr
                ((if modelRequired.isEmpty then required else modelRequired).map Json.str))]
  | t => createTypeSchema required t

/-! ### Extraction — `CreateChatCompletion.execute` -/

/-- A Python value as received in `execute`'s `**kwargs` and returned from
it.  `modelInst name fields` stands for an instance of the `BaseModel`
subclass `name` constructed from the keyword fields. -/
inductive PyVal where
  | str (s : String)
  | int (n : Int)
  | bool (b : Bool)
  | none
  | list (elements : List PyVal)
  | dict (fields : List (String × PyVal))
  | modelInst (name : String) (fields : List (String × PyVal))
deriving Repr

/-- The "Type conversion logic" tail of `CreateChatCompletion.execute`
(lines 187–202), applied to a single extracted `result`:
`str` returns it unchanged; a `BaseModel` subclass is constructed from the
full `kwargs`; `List[...]`/`Dict[...]` origins return the result assuming it
already has the right shape; otherwise `self.response_type(result)` is
attempted, and a `ValueError`/`TypeError` is absorbed by returning the raw
result (here: `int(...)` parses strings and converts booleans, `bool(...)`
never fails; any unconvertible value falls back to `result`). -/
def convertResult (response_type : PyTy) (result : PyVal) (kwargs : List (String × PyVal)) :
    PyVal :=
  match response_type with
  | .pyStr => result
  | .model name _ _ => .modelInst name kwargs
  | .listOf _ => result
  | .dictOf _ _ => result
  | .pyInt =>
    match result with
    | .int n => .int n
    | .bool b => .int (if b then 1 else 0)
    | .str s => match s.toInt? with
      | some n => .int n
      | Option.none => .str s
    | v => v
  | .pyBool =>
    match result with
    | .bool b => .bool b
    | .int n => .bool (n != 0)
    | .str s => .bool (s != "")
    | .list xs => .bool (!xs.isEmpty)
    | .dict fs => .bool (!fs.isEmpty)
    | .none => .bool false
    | v => v
  | _ => result

/-- `CreateChatCompletion.execute` (lines 163–202).  `required?` is the
optional `required` argument; `self_required` is the instance field
(default `["response"]`).  `required = required or self.required` makes a
falsy argument (absent or the empty list) fall back to the instance field.
A required list of length ≥ 2 returns the dictionary of raw values right
away — before any type conversion; a single required field (or a falsy,
hence defaulted, list) extracts that field's raw value, defaulting to
`""`, and then runs the conversion tail. -/
def execute (response_type : PyTy) (self_required : List String)
    (required? : Option (List String)) (kwargs : List (String × PyVal)) : PyVal :=
  let required := match required? with
    | Option.none => self_required
    | some l => if l.isEmpty then self_required else l
  if required.length > 0 then
    if required.length == 1 then
      let required_field := required.headD ""
      let result := (kwargs.lookup required_field).getD (.str "")
      convertResult response_type result kwargs
    else
      .dict (required.map (fun field => (field, (kwargs.lookup field).getD (.str ""))))
  else
    let result := (kwargs.lookup "response").getD (.str "")
    convertResult response_type result kwargs

/-! ### Auxiliary step implementations used by the claims -/

/-- A `step()` stub that returns a fixed string and never sets `FINISHED`
(the scenario of claims C2 and C4). -/
def stubStep : StepFn := fun a => (a, .ok "ok")

/-- A `step()` that immediately sets the state to `FINISHED` and returns
`"done"` (the scenario of claim C3). -/
def finStep : StepFn := fun a => ({ a with state := .FINISHED }, .ok "done")

/-- A `step()` that raises (the scenario of claim C1), leaving the agent
untouched and propagating the exception message. -/
def raiseStep (e : String) : StepFn := fun a => (a, .error e)

/-! ### Theorems -/

/-- Claim C5 — confirmed.  For every agent whose state is not `IDLE`,
`run` (with or without a request argument, any step implementation, any
fuel) fails immediately with the invocation `RuntimeError`, returns the
agent completely unchanged — so neither `current_step` nor `memory` nor
`state` is mutated — and executes no step. -/
theorem claim5_run_outside_idle_fails (a : Agent) (step : StepFn) (fuel : Nat)
    (request : Option String) (h : a.state ≠ AgentState.IDLE) :
    run step fuel a request =
      some (a, .error ("Cannot run agent from state: " ++ a.state.render)) := by
  simp [run, h]

/-- Witness for C5 at a concrete input: an agent in `RUNNING` state. -/
theorem claim5_witness :
    ({ state := .RUNNING } : Agent).state ≠ AgentState.IDLE ∧
    run stubStep 5 { state := .RUNNING } (some "req") =
      some (({ state := .RUNNING } : Agent),
        .error ("Cannot run agent from state: " ++ AgentState.RUNNING.render)) :=
  ⟨by decide, claim5_run_outside_idle_fails { state := .RUNNING } stubStep 5 (some "req")
    (by decide)⟩

/-- Claim C2 — counterexample.  An agent in state `IDLE` with
`max_steps = 0` does NOT get the sentinel `"No steps executed"`: the budget
branch fires (`0 >= 0`), appends the termination record, and `run` returns
`"Terminated: Reached max steps (0)"`. -/
theorem claim2_counterexample :
    run stubStep 1 { max_steps := 0 } none =
      some (({ max_steps := 0 } : Agent), .ok "Terminated: Reached max steps (0)") ∧
    ("Terminated: Reached max steps (0)" : String) ≠ "No steps executed" :=
  ⟨rfl, by decide⟩

/-- Claim C2 — amended.  For an agent in state `IDLE` with `max_steps = 0`
(and the default `current_step = 0`, so the loop body never runs), `run`
returns `"Terminated: Reached max steps (0)"` — not the sentinel: the
budget-exhausted branch fires even though no step ran, so the result list is
non-empty.  The agent itself is returned unchanged. -/
theorem claim2_max_steps_zero (M : List Message) (p : Option String) (d : Int)
    (step : StepFn) (fuel : Nat) (hf : 1 ≤ fuel) :
    run step fuel ⟨.IDLE, M, p, 0, 0, d⟩ none =
      some (⟨.IDLE, M, p, 0, 0, d⟩, .ok "Terminated: Reached max steps (0)") := by
  match fuel, hf with
  | fuel + 1, _ => rfl

/-- Witness for the amended C2 at a concrete input. -/
theorem claim2_witness :
    (1 : Nat) ≤ 1 ∧
    run stubStep 1 ⟨.IDLE, [], none, 0, 0, 2⟩ none =
      some (⟨.IDLE, [], none, 0, 0, 2⟩, .ok "Terminated: Reached max steps (0)") :=
  ⟨le_refl 1, claim2_max_steps_zero [] none 2 stubStep 1 (le_refl 1)⟩

/-- Claim C3 — counterexample.  With `max_steps = 1` and a step that sets
`FINISHED` and returns `"done"`, `run` does NOT return the single line
`"Step 1: done"`: since `current_step` (1) has reached `max_steps` (1), the
budget branch also appends the termination record. -/
theorem claim3_counterexample :
    run finStep 2 { max_steps := 1 } none =
      some (({ max_steps := 1 } : Agent),
        .ok "Step 1: done\nTerminated: Reached max steps (1)") ∧
    ("Step 1: done\nTerminated: Reached max steps (1)" : String) ≠ "Step 1: done" :=
  ⟨rfl, by decide⟩

/-- Claim C3 — amended.  For an agent in state `IDLE` with `max_steps = 1`
whose `step()` sets `FINISHED` and returns `"done"` (without touching
memory), `run` returns `"Step 1: done\nTerminated: Reached max steps (1)"`:
the first line is the claimed step record, but because `current_step`
reached `max_steps` the termination record is appended as a second line even
though the agent finished. -/
theorem claim3_finished_step (p : Option String) (d : Int) (fuel : Nat)
    (hf : 2 ≤ fuel) :
    run finStep fuel ⟨.IDLE, [], p, 1, 0, d⟩ none =
      some (⟨.IDLE, [], p, 1, 0, d⟩,
        .ok "Step 1: done\nTerminated: Reached max steps (1)") := by
  match fuel, hf with
  | fuel + 2, _ => rfl

/-- Witness for the amended C3 at a concrete input. -/
theorem claim3_witness :
    (2 : Nat) ≤ 2 ∧
    run finStep 2 ⟨.IDLE, [], none, 1, 0, 2⟩ none =
      some (⟨.IDLE, [], none, 1, 0, 2⟩,
        .ok "Step 1: done\nTerminated: Reached max steps (1)") :=
  ⟨le_refl 2, claim3_finished_step none 2 2 (le_refl 2)⟩

/-- Claim C1 — counterexample.  A `step()` that raises does propagate its
exception out of `run`, but the agent's state after `run` returns control is
`IDLE` (the pre-run state), NOT `ERROR`: the context manager's `finally`
clause runs after the `except` clause, so the write of `ERROR` is
overwritten by the restoration of the previous state. -/
theorem claim1_counterexample :
    run (raiseStep "boom") 1 { max_steps := 1 } none =
      some (({ max_steps := 1, current_step := 1 } : Agent), .error "boom") ∧
    ({ max_steps := 1, current_step := 1 } : Agent).state = AgentState.IDLE ∧
    AgentState.IDLE ≠ AgentState.ERROR :=
  ⟨rfl, rfl, by decide⟩

/-- Claim C1 — amended.  When `step()` raises, the exception propagates to
the caller, and the agent's state is set to `ERROR` by the exception handler
but then restored to the previous (pre-run) state by the `finally` clause,
so after `run` returns control the state equals the pre-run state `IDLE`,
not `ERROR`; only the step counter increment survives. -/
theorem claim1_step_exception (M : List Message) (p : Option String)
    (ms c d : Int) (e : String) (fuel : Nat) (hc : c < ms) (hf : 1 ≤ fuel) :
    run (raiseStep e) fuel ⟨.IDLE, M, p, ms, c, d⟩ none =
      some (⟨.IDLE, M, p, ms, c + 1, d⟩, .error e) := by
  match fuel, hf with
  | fuel + 1, _ =>
    simp only [run, runLoop, raiseStep]
    rw [if_neg (by simp), if_pos ⟨hc, by simp⟩]
    simp [pyTruthy]

/-- Witness for the amended C1 at a concrete input. -/
theorem claim1_witness :
    ((0 : Int) < 1 ∧ (1 : Nat) ≤ 1) ∧
    run (raiseStep "boom") 1 ⟨.IDLE, [], none, 1, 0, 2⟩ none =
      some (⟨.IDLE, [], none, 1, 0 + 1, 2⟩, .error "boom") :=
  ⟨⟨by decide, le_refl 1⟩,
    claim1_step_exception [] none 1 0 2 "boom" 1 (by decide) (le_refl 1)⟩

/-- The step loop with the fixed-string stub: starting from a `RUNNING`
agent with empty memory whose budget has `n` iterations left
(`max_steps - current_step = n`), the loop runs exactly `n` more times,
leaves the counter at `max_steps`, and appends one record per iteration. -/
theorem runLoop_stub (n : Nat) : ∀ (fuel : Nat), n < fuel →
    ∀ (p : Option String) (N c d : Int) (acc : List String), N - c = (n : Int) →
    runLoop stubStep fuel ⟨.RUNNING, [], p, N, c, d⟩ acc =
      some (⟨.RUNNING, [], p, N, N, d⟩,
        acc ++ (List.range n).map
          (fun (i : Nat) => "Step " ++ toString (c + (i : Int) + 1) ++ ": " ++ "ok"),
        .ok ()) := by
  induction n with
  | zero =>
    intro fuel hf p N c d acc hc
    match fuel, hf with
    | fuel + 1, _ =>
      have hcN : c = N := by omega
      subst hcN
      simp [runLoop]
  | succ n ih =>
    intro fuel hf p N c d acc hc
    match fuel, hf with
    | fuel + 1, _ =>
      have hlt : c < N := by omega
      have hmap : (List.range (n + 1)).map
            (fun (i : Nat) => "Step " ++ toString (c + (i : Int) + 1) ++ ": " ++ "ok") =
          ("Step " ++ toString (c + 1) ++ ": " ++ "ok") ::
            (List.range n).map
              (fun (i : Nat) => "Step " ++ toString (c + 1 + (i : Int) + 1) ++ ": " ++ "ok") := by
        rw [List.range_succ_eq_map, List.map_cons, List.map_map]
        refine congrArg₂ _ (by norm_num) ?_
        refine List.map_congr_left fun i _ => ?_
        have harg : c + ((i : Int) + 1) + 1 = c + 1 + (i : Int) + 1 := by ring
        simp only [Function.comp, Nat.succ_eq_add_one, Nat.cast_add, Nat.cast_one]
        rw [harg]
      rw [runLoop, if_pos ⟨hlt, by simp⟩]
      show runLoop stubStep fuel ⟨.RUNNING, [], p, N, c + 1, d⟩
          (acc ++ ["Step " ++ toString (c + 1) ++ ": " ++ "ok"]) = _
      rw [ih fuel (by omega) p N (c + 1) d _ (by omega), hmap]
      simp

/-- `str.join` over a list with a last element appended: the separator and
the last element are appended to the join of the prefix (when the prefix is
non-empty).  This is what makes the appended element the last line of the
joined summary when the separator is a newline. -/
theorem joinStrings_concat (sep x : String) (L : List String) (h : L ≠ []) :
    joinStrings sep (L ++ [x]) = joinStrings sep L ++ sep ++ x := by
  induction L with
  | nil => exact absurd rfl h
  | cons a t ih =>
    cases t with
    | nil => simp [joinStrings]
    | cons b u =>
      have ht := ih (by simp)
      simp only [List.cons_append] at ht ⊢
      show a ++ sep ++ joinStrings sep (b :: (u ++ [x])) =
        (a ++ sep ++ joinStrings sep (b :: u)) ++ sep ++ x
      rw [ht]
      simp [String.append_assoc]

/-- Claim C4 — confirmed.  For every `max_steps = N ≥ 1` and the
fixed-string `step()` stub that never sets `FINISHED`, after `run`
completes: `current_step` equals 0, the state equals `IDLE`, and the
returned summary ends, after a newline, with the termination record
`"Terminated: Reached max steps (N)"` — i.e. that record (which contains no
newline) is the summary's last line. -/
theorem claim4_budget_reached (N : Int) (hN : 1 ≤ N) (fuel : Nat)
    (hf : N.toNat < fuel) :
    ∃ (A : Agent) (out : String),
      run stubStep fuel ⟨.IDLE, [], none, N, 0, 2⟩ none = some (A, .ok out) ∧
      A.current_step = 0 ∧ A.state = AgentState.IDLE ∧
      ∃ pre, out = pre ++ "\n" ++
        ("Terminated: Reached max steps (" ++ toString N ++ ")") := by
  have hloop := runLoop_stub N.toNat fuel hf none N 0 2 [] (by omega)
  set term : String := "Terminated: Reached max steps (" ++ toString N ++ ")" with hterm
  set steps : List String := (List.range N.toNat).map
      (fun (i : Nat) => "Step " ++ toString ((0 : Int) + (i : Int) + 1) ++ ": " ++ "ok")
    with hsteps
  have hne : steps ≠ [] := by
    rw [hsteps]
    simp only [ne_eq, List.map_eq_nil_iff, List.range_eq_nil]
    omega
  obtain ⟨s0, ss, hss⟩ := List.exists_cons_of_ne_nil hne
  refine ⟨⟨.IDLE, [], none, N, 0, 2⟩, joinStrings "\n" (steps ++ [term]), ?_, rfl, rfl,
    ⟨joinStrings "\n" steps, joinStrings_concat "\n" term steps hne⟩⟩
  simp only [run, pyTruthy, Bool.false_eq_true, if_false, ne_eq, not_true_eq_false]
  rw [hloop]
  rw [hss]
  simp [hterm]

/-- Witness for C4 at a concrete input: `N = 2`, fuel 3. -/
theorem claim4_witness :
    ((1 : Int) ≤ 2 ∧ (2 : Int).toNat < 3) ∧
    (∃ (A : Agent) (out : String),
      run stubStep 3 ⟨.IDLE, [], none, 2, 0, 2⟩ none = some (A, .ok out) ∧
      A.current_step = 0 ∧ A.state = AgentState.IDLE ∧
      ∃ pre, out = pre ++ "\n" ++
        ("Terminated: Reached max steps (" ++ toString (2 : Int) ++ ")")) :=
  ⟨⟨by decide, by decide⟩, claim4_budget_reached 2 (by decide) 3 (by decide)⟩

/-! ### Stuck detection (C6) -/

/-- The stuck predicate exactly as claim C6 words it: false for fewer than
two messages, otherwise true exactly when the number of messages before the
last one with role `assistant` and content equal to the last message's
content reaches `duplicate_threshold`.  (Stated from the claim, to be
compared with `Agent.is_stuck`, which is translated from the source.) -/
def isStuckClaimed (a : Agent) : Bool :=
  if a.memory.length < 2 then false
  else
    match a.memory.getLast? with
    | none => false
    | some last =>
      decide (a.duplicate_threshold ≤
        (((a.memory.dropLast.filter
          (fun msg => msg.role == Role.assistant && msg.content == last.content)).length : Nat) : Int))

/-- The content of the last message in memory (empty when memory is empty). -/
def Agent.lastContent (a : Agent) : String :=
  (a.memory.getLast?.map Message.content).getD ""

/-- The number of messages before the last one whose role is `assistant` and
whose content equals the last message's content. -/
def Agent.dupCount (a : Agent) : Nat :=
  (a.memory.dropLast.filter
    (fun msg => msg.role == Role.assistant && msg.content == a.lastContent)).length

/-- Claim C6 — counterexample.  With threshold 2 and three assistant
messages of identical (empty) content, the claimed predicate says "stuck"
(two earlier duplicates reach the threshold), but `is_stuck` returns false:
the source has an extra guard returning false whenever the last message's
content is falsy (empty). -/
theorem claim6_counterexample :
    isStuckClaimed { memory := [⟨.assistant, "", none, none⟩,
      ⟨.assistant, "", none, none⟩, ⟨.assistant, "", none, none⟩] } = true ∧
    Agent.is_stuck { memory := [⟨.assistant, "", none, none⟩,
      ⟨.assistant, "", none, none⟩, ⟨.assistant, "", none, none⟩] } = false :=
  ⟨by decide, by decide⟩

/-- Claim C6 — amended.  `is_stuck` returns false whenever memory holds
fewer than two messages OR the last message's content is empty; otherwise it
returns true exactly when the number of messages before the last one that
have role `assistant` and content equal to the last message's content
reaches `duplicate_threshold`. -/
theorem claim6_is_stuck_characterization (a : Agent) :
    a.is_stuck = true ↔
      2 ≤ a.memory.length ∧ a.lastContent ≠ "" ∧
        a.duplicate_threshold ≤ (a.dupCount : Int) := by
  rcases List.eq_nil_or_concat a.memory with h | ⟨l, m, h⟩
  · simp [Agent.is_stuck, h]
  · simp only [Agent.is_stuck, Agent.lastContent, Agent.dupCount, h,
      List.concat_eq_append, List.getLast?_concat, List.dropLast_concat,
      Option.map_some, Option.getD_some,
      List.length_append, List.length_cons, List.length_nil, Nat.zero_add]
    by_cases hl : l.length + 1 < 2
    · simp only [if_pos hl]
      constructor
      · intro hfalse; exact absurd hfalse Bool.false_ne_true
      · rintro ⟨h2, -⟩; omega
    · simp only [if_neg hl]
      by_cases hm : m.content == ""
      · simp only [if_pos hm]
        constructor
        · intro hfalse; exact absurd hfalse Bool.false_ne_true
        · rintro ⟨-, hne, -⟩; exact absurd (by simpa using hm) hne
      · simp only [if_neg hm]
        rw [decide_eq_true_eq]
        constructor
        · intro hcount
          exact ⟨by omega, by simpa using hm, hcount⟩
        · rintro ⟨-, -, hcount⟩; exact hcount

/-! ### Tool result merging and truthiness (C7, C8) -/

/-- Claim C7 — counterexample.  Both operands have their `base64_image`
field present (set to a string), yet `+` does not fail: the left image is
the empty string, which is falsy in Python, so `combine_fields` does not
take the both-present branch and the merge succeeds, returning the right
image.  ("Present" in the claim is refuted; the source tests truthiness.) -/
theorem claim7_counterexample :
    ToolResult.add { base64_image := some "" } { base64_image := some "p2" } =
      .ok { base64_image := some "p2" } ∧
    ({ base64_image := some "" } : ToolResult).base64_image.isSome = true ∧
    ({ base64_image := some "p2" } : ToolResult).base64_image.isSome = true :=
  ⟨rfl, rfl, rfl⟩

/-- The per-field combination rule of claim C7, amended: "present" weakened
to Python-truthy (set and non-empty).  If both sides are truthy the merged
field is left-then-right concatenation; otherwise the left value if truthy,
else the right value as is. -/
def mergeFieldAmended (x y : Option String) : Option String :=
  if pyTruthy x && pyTruthy y then some (x.getD "" ++ y.getD "")
  else if pyTruthy x then x else y

/-- The merge of claim C7, amended: the combination fails with the
`ValueError` exactly when both `base64_image` fields are truthy; otherwise
it produces the field-wise merged result, taking the truthy image side. -/
def addAmended (r1 r2 : ToolResult) : Except String ToolResult :=
  if pyTruthy r1.base64_image && pyTruthy r2.base64_image then
    .error "Cannot combine tool results"
  else
    .ok { output := mergeFieldAmended r1.output r2.output,
          error := mergeFieldAmended r1.error r2.error,
          base64_image := if pyTruthy r1.base64_image then r1.base64_image else r2.base64_image,
          system := mergeFieldAmended r1.system r2.system }

/-- `combine_fields` with concatenation allowed never fails and computes the
amended per-field rule. -/
theorem combine_fields_concat (x y : Option String) :
    combine_fields x y true = .ok (mergeFieldAmended x y) := by
  unfold combine_fields mergeFieldAmended
  by_cases h : pyTruthy x && pyTruthy y <;> simp [h]

/-- Claim C7 — amended.  For every pair of `ToolResult` values, `+` computes
exactly the amended rule: for `output`, `error` and `system`, if both sides
are truthy (set and non-empty) the merged field is the left value followed
by the right value, otherwise the left value if truthy else the right
value; and the combination fails with the `ValueError` exactly when both
sides have a truthy `base64_image` (otherwise the truthy image side is
taken). -/
theorem claim7_add_characterization (r1 r2 : ToolResult) :
    ToolResult.add r1 r2 = addAmended r1 r2 := by
  unfold ToolResult.add addAmended
  rw [combine_fields_concat, combine_fields_concat, combine_fields_concat]
  by_cases h : pyTruthy r1.base64_image && pyTruthy r2.base64_image <;>
    simp only [combine_fields, h, Bool.false_eq_true, if_true, if_false] <;> rfl

/-- Claim C8 — counterexample.  A `ToolResult` whose `output` field is set
(to the empty string) is still falsy: the source tests Python truthiness of
each field, not whether it is set. -/
theorem claim8_counterexample :
    ToolResult.toBool { output := some "" } = false ∧
    ({ output := some "" } : ToolResult).output.isSome = true :=
  ⟨rfl, rfl⟩

/-- An optional string is Python-truthy iff it is set to a non-empty string. -/
theorem pyTruthy_iff (x : Option String) :
    pyTruthy x = true ↔ ∃ s, s ≠ "" ∧ x = some s := by
  cases x <;> simp [pyTruthy]

/-- Claim C8 — amended.  The truthiness of a `ToolResult` is true if and
only if at least one of its fields (`output`, `error`, `base64_image`,
`system`) is set to a non-empty string (a merely set but empty field does
not count). -/
theorem claim8_toBool_characterization (r : ToolResult) :
    ToolResult.toBool r = true ↔
      ∃ s, s ≠ "" ∧ (r.output = some s ∨ r.error = some s ∨
        r.base64_image = some s ∨ r.system = some s) := by
  simp only [ToolResult.toBool, Bool.or_eq_true, pyTruthy_iff]
  constructor
  · rintro (((⟨s, hs, h⟩ | ⟨s, hs, h⟩) | ⟨s, hs, h⟩) | ⟨s, hs, h⟩)
    · exact ⟨s, hs, Or.inl h⟩
    · exact ⟨s, hs, Or.inr (Or.inl h)⟩
    · exact ⟨s, hs, Or.inr (Or.inr (Or.inl h))⟩
    · exact ⟨s, hs, Or.inr (Or.inr (Or.inr h))⟩
  · rintro ⟨s, hs, h | h | h | h⟩
    · exact Or.inl (Or.inl (Or.inl ⟨s, hs, h⟩))
    · exact Or.inl (Or.inl (Or.inr ⟨s, hs, h⟩))
    · exact Or.inl (Or.inr ⟨s, hs, h⟩)
    · exact Or.inr ⟨s, hs, h⟩

/-! ### Schema generation (C9) and extraction (C10) -/

/-- Claim C9 — confirmed.  Schema generation for the primitive integer
response type (`response_type = int`, instance `required = ["response"]`)
produces an object-typed schema whose `properties` object declares exactly
one property, named `response`, of type `"integer"`, and whose `required`
list is exactly `["response"]`. -/
theorem claim9_int_schema :
    (buildParameters ["response"] PyTy.pyInt).get "type" = some (Json.str "object") ∧
    (∃ p, (buildParameters ["response"] PyTy.pyInt).get "properties" =
        some (Json.obj [("response", p)]) ∧
      p.get "type" = some (Json.str "integer")) ∧
    (buildParameters ["response"] PyTy.pyInt).get "required" =
      some (Json.arr [Json.str "response"]) :=
  ⟨rfl,
   ⟨Json.obj [("type", Json.str "integer"),
              ("description", Json.str "Response of type int")], rfl, rfl⟩,
   rfl⟩

/-- Claim C10 — confirmed.  For every call to `execute` with a required list
of length at least two, the returned value is exactly the dictionary mapping
each required field name to its raw value from `kwargs` (defaulting to the
empty string for absent fields); extra fields are ignored and no type
conversion is applied, regardless of the declared `response_type` (the
multi-field branch returns before the conversion tail). -/
theorem claim10_multi_field_extraction (response_type : PyTy)
    (self_required : List String) (req : List String)
    (kwargs : List (String × PyVal)) (h : 2 ≤ req.length) :
    execute response_type self_required (some req) kwargs =
      .dict (req.map (fun field => (field, (kwargs.lookup field).getD (.str "")))) := by
  match req, h with
  | f1 :: f2 :: rest, _ =>
    simp only [execute, List.isEmpty_cons, Bool.false_eq_true, if_false,
      List.length_cons]
    rw [if_pos (Nat.succ_pos _), if_neg (by simp)]

/-- Witness for C10 at the spec's concrete input:
`required = ["a","b"]`, raw fields `{a: 1, b: 2, c: 3}` yield
`{"a": 1, "b": 2}`, ignoring `c`. -/
theorem claim10_witness :
    2 ≤ (["a", "b"] : List String).length ∧
    execute PyTy.pyInt ["response"] (some ["a", "b"])
        [("a", .int 1), ("b", .int 2), ("c", .int 3)] =
      .dict ((["a", "b"] : List String).map (fun field =>
        (field, (([("a", PyVal.int 1), ("b", PyVal.int 2),
          ("c", PyVal.int 3)] : List (String × PyVal)).lookup field).getD (.str "")))) :=
  ⟨by decide,
   claim10_multi_field_extraction PyTy.pyInt ["response"] ["a", "b"]
     [("a", .int 1), ("b", .int 2), ("c", .int 3)] (by decide)⟩

end PcAgent
